import Mathlib

/-!
Shallow embedding of `LSTM.py` (StrikeMetrics final project) and proofs of the
behavioural claims about it.

Conventions of the embedding:
- Python floats carrying validation accuracies, losses and thresholds are
  modelled as rationals (ℚ); all arithmetic on them in the relevant code paths
  is comparison, subtraction and division of exact decimal constants.
- A pandas `DataFrame` is modelled by its column-name list and its rows.
- A Python `dict` with integer keys is modelled as a function `Int → Option Nat`;
  `d[k] = v` becomes a pointwise `Function.update`, `d.get(k, default)` becomes
  `(d k).getD default`.
- Code that raises is modelled with `Except`/`Option`.
- The neural network itself (`HybridBoxingLSTM`), the optimizer and the loss
  function are floating-point objects and are not modelled; where a claim
  quantifies over classifier parameter states the parameters appear as an
  opaque type variable, which is faithful because the code paths under
  verification never read them.
-/

/-! ## Constants (LSTM.py lines 16-18) -/

def STRIKE_TYPES : List String :=
  ["No Strike", "Jab", "Cross", "Hook", "Upper", "Leg Kick", "Body Kick", "High Kick"]

def NUM_CLASSES : Nat := STRIKE_TYPES.length

/-- Line 18: `STRIKE_TYPE_TO_ID = {name: i for i, name in enumerate(STRIKE_TYPES)}`. -/
def STRIKE_TYPE_TO_ID : List (String × Nat) :=
  STRIKE_TYPES.enum.map fun p => (p.2, p.1)

/-- Raising dictionary access `STRIKE_TYPE_TO_ID[name]` (returns `none` where
Python raises `KeyError`). -/
def lookupStrikeId (name : String) : Option Nat :=
  STRIKE_TYPE_TO_ID.lookup name

/-- Defaulting dictionary access `STRIKE_TYPE_TO_ID.get(name, d)`. -/
def lookupStrikeIdD (name : String) (d : Nat) : Nat :=
  (lookupStrikeId name).getD d

/-- Python list indexing `STRIKE_TYPES[i]` for an id already known to be in
range (lines 263, 284, 295); out-of-range ids, which raise in Python, give `""`. -/
def strikeName (i : Nat) : String := STRIKE_TYPES.getD i ""

/-! ## EarlyStopping (lines 22-39) -/

structure EarlyStopping where
  patience : Nat
  min_delta : ℚ
  counter : Nat
  best_loss : Option ℚ
  early_stop : Bool
deriving DecidableEq, Repr

/-- Constructor (lines 23-28): counter 0, no best value, stop flag clear. -/
def EarlyStopping.init (patience : Nat) (min_delta : ℚ) : EarlyStopping :=
  { patience := patience, min_delta := min_delta, counter := 0,
    best_loss := none, early_stop := false }

/-- `EarlyStopping.__call__` (lines 30-39). -/
def EarlyStopping.call (es : EarlyStopping) (val_loss : ℚ) : EarlyStopping :=
  match es.best_loss with
  | none => { es with best_loss := some val_loss }
  | some best =>
    if best - val_loss > es.min_delta then
      { es with best_loss := some val_loss, counter := 0 }
    else
      let c := es.counter + 1
      { es with counter := c,
                early_stop := if c ≥ es.patience then true else es.early_stop }

/-! ## validate_without_inference (lines 82-90)

The validation loader yields batches of rows of a `ValidationComparisonDataset`;
each row contributes its already-looked-up `predicted_strike` and
`actual_strike` label ids.  A batch is a list of such pairs;
`(predicted_strikes == actual_strikes).sum().item()` is the number of
positions where the two ids agree and `predicted_strikes.size(0)` is the
batch length. -/

def validate_without_inference (validation_loader : List (List (Nat × Nat))) : ℚ :=
  let correct : Nat := (validation_loader.map fun batch =>
    batch.countP fun r => r.1 == r.2).sum
  let total : Nat := (validation_loader.map List.length).sum
  (correct : ℚ) / (total : ℚ)

/-- Line 202 of the training loop: the per-epoch validation accuracy.  The
classifier parameter state `model` is in scope there but does not occur in the
computation, which only reads the loader. -/
def epochValidationAccuracy {M : Type} (_model : M)
    (validation_loader : List (List (Nat × Nat))) : ℚ :=
  validate_without_inference validation_loader

/-! ## Claim C3 -/

/-! ### Binary64 values of the C3 test sequence

The program computes on IEEE-754 binary64 doubles.  Every double is an exact
rational; the constants below are the exact rational values of the doubles
nearest the source literals 0.99, 0.97, 0.96 and 0.01 (1.0 is the exact
double 1).  The literals 0.99, 0.97, 0.96 lie in the binade [1/2, 1), whose
unit in the last place is 2^-53, so their doubles are m/2^53 with
m = 99/100 * 2^53 = 8917127262193582.08 rounded to 8917127262193582,
m = 97/100 * 2^53 = 8736983277098762.24 rounded to 8736983277098762 and
m = 96/100 * 2^53 = 8646911284551352.32 rounded to 8646911284551352; the
literal 0.01 lies in [2^-7, 2^-6) with unit in the last place 2^-59, so its
double is 1/100 * 2^59 = 5764607523034234.88 rounded to 5764607523034235.
Each rounding is certified below by a strict half-unit distance bound, which
determines the nearest double uniquely.

Along the trace [1.0, 1.0, 0.99, 0.97, 0.96] every subtraction
`best_loss - val_loss` the program performs is exact in binary64: the
operands of each are within a factor of two of one another (1 and 0.99,
0.99 and 0.97, 0.97 and 0.96, 1 and 1), so by the Sterbenz lemma the
difference is representable and incurs no rounding. Hence the exact rational
subtraction of `EarlyStopping.call` coincides with the float subtraction of
the program at every step, and the rational trace below equals the program
state for state. -/

def float0_99 : ℚ := 8917127262193582 / 2 ^ 53

def float0_97 : ℚ := 8736983277098762 / 2 ^ 53

def float0_96 : ℚ := 8646911284551352 / 2 ^ 53

def float0_01 : ℚ := 5764607523034235 / 2 ^ 59

/-- Certification of the float model: each constant is strictly within half a
unit in the last place of its source literal (so it is the unique nearest
double), and the three subtractions the trace performs are exactly the
representable values stated (each numerator is below 2^53, so the binary64
subtraction is exact and agrees with rational subtraction). -/
theorem float_model_certification :
    (99/100 - 1/2^54 < float0_99 ∧ float0_99 < 99/100 + 1/2^54) ∧
    (97/100 - 1/2^54 < float0_97 ∧ float0_97 < 97/100 + 1/2^54) ∧
    (96/100 - 1/2^54 < float0_96 ∧ float0_96 < 96/100 + 1/2^54) ∧
    (1/100 - 1/2^60 < float0_01 ∧ float0_01 < 1/100 + 1/2^60) ∧
    1 - float0_99 = 90071992547410 / 2 ^ 53 ∧
    float0_99 - float0_97 = 180143985094820 / 2 ^ 53 ∧
    float0_97 - float0_96 = 90071992547410 / 2 ^ 53 := by
  norm_num [float0_99, float0_97, float0_96, float0_01]

/-- The monitor state of `EarlyStopping(patience=2, min_delta=0.01)` after
being fed the given values in order, with `min_delta` the binary64 value of
the literal 0.01. -/
def earlyStopAfterFloat (vals : List ℚ) : EarlyStopping :=
  vals.foldl EarlyStopping.call (EarlyStopping.init 2 float0_01)

/-- C3 counterexample: fed the binary64 values of 1.0, 1.0, 0.99, the monitor
does NOT stop at the third value — the binary64 difference 1.0 - 0.99
(= 0.010000000000000009…) is strictly greater than the double nearest 0.01,
so the third call takes the improvement branch, resetting the counter to 0
and recording best 0.99, with the stop flag still clear; the claim asserts
the counter reaches 2 and the flag is set there. -/
theorem c3_early_stopping_stop_at_third_counterexample :
    1 - float0_99 > float0_01 ∧
    (earlyStopAfterFloat [1, 1, float0_99]).early_stop = false ∧
    (earlyStopAfterFloat [1, 1, float0_99]).counter = 0 ∧
    (earlyStopAfterFloat [1, 1, float0_99]).best_loss = some float0_99 := by
  norm_num [earlyStopAfterFloat, EarlyStopping.init, EarlyStopping.call,
    float0_99, float0_01]

/-- C3 as amended: for `EarlyStopping(patience=2, min_delta=0.01)` fed the
binary64 values of 1.0, 1.0, 0.99, 0.97, 0.96 in order, an improvement counts
only when `best - v` is strictly greater than `min_delta`: the first value
records best 1.0 with no stop and the second increments the counter to 1, but
the third value qualifies as an improvement — in binary64,
1.0 - 0.99 = 0.010000000000000009… strictly exceeds the double nearest
0.01 — so the counter resets to 0 and best becomes 0.99; the fourth and fifth
values likewise qualify, and the stop flag is never set on this sequence. -/
theorem c3_early_stopping_float_trace :
    (earlyStopAfterFloat [1]).best_loss = some 1 ∧
    (earlyStopAfterFloat [1]).counter = 0 ∧
    (earlyStopAfterFloat [1]).early_stop = false ∧
    (earlyStopAfterFloat [1, 1]).counter = 1 ∧
    (earlyStopAfterFloat [1, 1]).early_stop = false ∧
    (earlyStopAfterFloat [1, 1, float0_99]).counter = 0 ∧
    (earlyStopAfterFloat [1, 1, float0_99]).best_loss = some float0_99 ∧
    (earlyStopAfterFloat [1, 1, float0_99]).early_stop = false ∧
    (earlyStopAfterFloat [1, 1, float0_99, float0_97]).counter = 0 ∧
    (earlyStopAfterFloat [1, 1, float0_99, float0_97]).best_loss = some float0_97 ∧
    (earlyStopAfterFloat [1, 1, float0_99, float0_97]).early_stop = false ∧
    (earlyStopAfterFloat [1, 1, float0_99, float0_97, float0_96]).counter = 0 ∧
    (earlyStopAfterFloat [1, 1, float0_99, float0_97, float0_96]).best_loss =
      some float0_96 ∧
    (earlyStopAfterFloat [1, 1, float0_99, float0_97, float0_96]).early_stop
      = false := by
  norm_num [earlyStopAfterFloat, EarlyStopping.init, EarlyStopping.call,
    float0_99, float0_97, float0_96, float0_01]

/-! ## Claim C2 -/

/-- C2: the per-epoch validation accuracy of the training loop is insensitive
to the classifier parameter state (any two parameter states give the identical
value over the same loader), and on a nonempty loader it equals the fraction of
validation rows whose predicted label id equals their actual label id — no
forward pass enters the computation. -/
theorem c2_validation_accuracy_independent_of_model {M : Type} (p1 p2 : M)
    (loader : List (List (Nat × Nat))) :
    epochValidationAccuracy p1 loader = epochValidationAccuracy p2 loader ∧
    (loader.flatten ≠ [] →
      validate_without_inference loader =
        ((loader.flatten.countP fun r => r.1 == r.2 : Nat) : ℚ) /
          (loader.flatten.length : ℚ)) := by
  refine ⟨rfl, fun _ => ?_⟩
  simp only [validate_without_inference, ← List.countP_flatten, ← List.length_flatten]

/-- Witness for C2 at a concrete loader: two batches, three rows, two of which
agree, give the same value under two distinct parameter states, equal to the
fraction of agreeing rows. -/
theorem c2_validation_accuracy_independent_of_model_witness :
    epochValidationAccuracy (0 : Nat) [[(1, 1), (2, 3)], [(4, 4)]] =
      epochValidationAccuracy (7 : Nat) [[(1, 1), (2, 3)], [(4, 4)]] ∧
    validate_without_inference [[(1, 1), (2, 3)], [(4, 4)]] =
      (([[(1, 1), (2, 3)], [(4, 4)]] : List (List (Nat × Nat))).flatten.countP
          (fun r => r.1 == r.2) : ℚ) /
        (([[(1, 1), (2, 3)], [(4, 4)]] : List (List (Nat × Nat))).flatten.length : ℚ) :=
  ⟨(c2_validation_accuracy_independent_of_model 0 7 [[(1, 1), (2, 3)], [(4, 4)]]).1,
   (c2_validation_accuracy_independent_of_model 0 7 [[(1, 1), (2, 3)], [(4, 4)]]).2
     (by decide)⟩

/-! ## The per-video epoch loop (lines 187-221) and the driver (lines 172-219)

One iteration of the `while True` loop performs a training epoch (the gradient
pass over the training loader mutates only the floating-point classifier and
optimizer, which no later step of the loop reads, so it is not modelled),
computes the validation accuracy from the validation loader alone (line 202),
applies the checkpoint bookkeeping (lines 205-209), feeds the accuracy to the
early-stopping monitor and applies the two break conditions (lines 211-219).
`trainVideoLoop` returns the monitor state, the best accuracy, the list of
epochs at which a checkpoint file was written, and the number of epochs the
loop executed, starting from epoch counter `epoch`. -/

structure EpochLoopResult where
  early_stopping : EarlyStopping
  best_accuracy : ℚ
  saved_epochs : List Nat
  epochs_run : Nat
deriving DecidableEq

def trainVideoLoop (es : EarlyStopping) (validation_loader : List (List (Nat × Nat)))
    (best_accuracy : ℚ) (saved : List Nat) (epoch : Nat) : EpochLoopResult :=
  let validation_accuracy := validate_without_inference validation_loader
  let improved := validation_accuracy > best_accuracy
  let best2 := if improved then validation_accuracy else best_accuracy
  let saved2 := if improved then saved ++ [epoch] else saved
  let es2 := es.call validation_accuracy
  if es2.early_stop then ⟨es2, best2, saved2, 1⟩
  else if epoch + 1 ≥ 100 then ⟨es2, best2, saved2, 1⟩
  else
    let r := trainVideoLoop es2 validation_loader best2 saved2 (epoch + 1)
    ⟨r.early_stopping, r.best_accuracy, r.saved_epochs, r.epochs_run + 1⟩
termination_by 100 - epoch
decreasing_by omega

theorem trainVideoLoop_eq (es : EarlyStopping) (validation_loader : List (List (Nat × Nat)))
    (best_accuracy : ℚ) (saved : List Nat) (epoch : Nat) :
    trainVideoLoop es validation_loader best_accuracy saved epoch =
      (if (es.call (validate_without_inference validation_loader)).early_stop then
        ⟨es.call (validate_without_inference validation_loader),
         if validate_without_inference validation_loader > best_accuracy then
           validate_without_inference validation_loader else best_accuracy,
         if validate_without_inference validation_loader > best_accuracy then
           saved ++ [epoch] else saved, 1⟩
      else if epoch + 1 ≥ 100 then
        ⟨es.call (validate_without_inference validation_loader),
         if validate_without_inference validation_loader > best_accuracy then
           validate_without_inference validation_loader else best_accuracy,
         if validate_without_inference validation_loader > best_accuracy then
           saved ++ [epoch] else saved, 1⟩
      else
        ⟨(trainVideoLoop (es.call (validate_without_inference validation_loader))
            validation_loader
            (if validate_without_inference validation_loader > best_accuracy then
              validate_without_inference validation_loader else best_accuracy)
            (if validate_without_inference validation_loader > best_accuracy then
              saved ++ [epoch] else saved) (epoch + 1)).early_stopping,
         (trainVideoLoop (es.call (validate_without_inference validation_loader))
            validation_loader
            (if validate_without_inference validation_loader > best_accuracy then
              validate_without_inference validation_loader else best_accuracy)
            (if validate_without_inference validation_loader > best_accuracy then
              saved ++ [epoch] else saved) (epoch + 1)).best_accuracy,
         (trainVideoLoop (es.call (validate_without_inference validation_loader))
            validation_loader
            (if validate_without_inference validation_loader > best_accuracy then
              validate_without_inference validation_loader else best_accuracy)
            (if validate_without_inference validation_loader > best_accuracy then
              saved ++ [epoch] else saved) (epoch + 1)).saved_epochs,
         (trainVideoLoop (es.call (validate_without_inference validation_loader))
            validation_loader
            (if validate_without_inference validation_loader > best_accuracy then
              validate_without_inference validation_loader else best_accuracy)
            (if validate_without_inference validation_loader > best_accuracy then
              saved ++ [epoch] else saved) (epoch + 1)).epochs_run + 1⟩) := by
  rw [trainVideoLoop]

/-- `train_until_threshold_met` (lines 172-219) restricted to the state the
loop bodies actually read and write: the early-stopping monitor is created
once, at line 173, before the loop over videos, and is threaded through every
video; the classifier, optimizer, loss function, datasets and loaders are
created fresh inside the loop (lines 176-185) and are therefore per-video.
Each video contributes its validation loader (the rows of its
`ValidationComparisonDataset`, already mapped to label-id pairs, in batches);
per video the loop starts at `best_accuracy = 0.0` and `epoch = 0`
(lines 187-188).  The function returns the final monitor state and, per
video, the number of epochs its loop executed. -/
def train_until_threshold_met (videos : List (List (List (Nat × Nat)))) :
    EarlyStopping × List Nat :=
  videos.foldl
    (fun acc validation_loader =>
      let r := trainVideoLoop acc.1 validation_loader 0 [] 0
      (r.early_stopping, acc.2 ++ [r.epochs_run]))
    (EarlyStopping.init 10 (1/100), [])

/-- Bound on the epoch loop: starting from counter `epoch` with `100 - epoch = n`,
at most `n` epochs run. -/
theorem trainVideoLoop_epochs_le (n : Nat) :
    ∀ (es : EarlyStopping) (loader : List (List (Nat × Nat))) (best : ℚ)
      (saved : List Nat) (epoch : Nat), 100 - epoch = n → epoch < 100 →
      (trainVideoLoop es loader best saved epoch).epochs_run ≤ n := by
  induction n with
  | zero => intro es loader best saved epoch h1 h2; omega
  | succ k ih =>
    intro es loader best saved epoch h1 h2
    rw [trainVideoLoop_eq]
    split
    · exact Nat.le_add_left 1 k
    · split
      · exact Nat.le_add_left 1 k
      · rename_i hcap
        have hk : 100 - (epoch + 1) = k := by omega
        have hlt : epoch + 1 < 100 := by omega
        exact Nat.succ_le_succ (ih _ loader _ _ (epoch + 1) hk hlt)

/-- Plateau run of the epoch loop: if the monitor already has a recorded best
value `b`, the (constant) accuracy `v` of the loader never qualifies as an
improvement over `b`, the stop flag is clear, `k ≥ 1` further non-improving
epochs reach the patience, the epoch cap is not reached first and `v` never
exceeds the running best accuracy, then the loop runs exactly `k` more epochs,
ends with the stop flag set and the counter at the patience, and writes no
further checkpoint. -/
theorem trainVideoLoop_plateau (k : Nat) :
    ∀ (es : EarlyStopping) (loader : List (List (Nat × Nat))) (best : ℚ)
      (saved : List Nat) (epoch : Nat) (b v : ℚ),
      validate_without_inference loader = v →
      es.best_loss = some b →
      ¬(b - v > es.min_delta) →
      es.early_stop = false →
      es.counter + k = es.patience →
      1 ≤ k →
      epoch + k ≤ 100 →
      ¬(v > best) →
      trainVideoLoop es loader best saved epoch =
        ⟨{ es with counter := es.patience, early_stop := true }, best, saved, k⟩ := by
  induction k with
  | zero => intro es loader best saved epoch b v hv hb hni hstop hcnt hk hcap hbest; omega
  | succ k ih =>
    intro es loader best saved epoch b v hv hb hni hstop hcnt hk hcap hbest
    rw [trainVideoLoop_eq]
    rw [hv, if_neg hbest, if_neg hbest]
    have hcall : es.call v =
        { es with counter := es.counter + 1,
                  early_stop := if es.counter + 1 ≥ es.patience then true else es.early_stop } := by
      rw [EarlyStopping.call, hb]
      dsimp only
      rw [if_neg hni]
    rcases Nat.eq_zero_or_pos k with hk0 | hkpos
    · subst hk0
      have hpat : es.counter + 1 ≥ es.patience := by omega
      rw [hcall, if_pos hpat]
      have heq : es.counter + 1 = es.patience := by omega
      simp [heq]
    · have hpat : ¬(es.counter + 1 ≥ es.patience) := by omega
      rw [hcall, if_neg hpat, hstop]
      have hrec := ih { es with counter := es.counter + 1, early_stop := false } loader best saved
        (epoch + 1) b v hv hb hni rfl (by dsimp only; omega) hkpos (by omega) hbest
      simp only [hrec]
      simp [show ¬ epoch + 1 ≥ 100 by omega]

/-- The validation loader used in the concrete bug demonstration: one video
whose validation CSV has a single row on which the predicted and actual label
names agree, so its label-comparison accuracy is constantly 1. -/
def demoLoader : List (List (Nat × Nat)) := [[(0, 0)]]

theorem demoLoader_accuracy : validate_without_inference demoLoader = 1 := by
  norm_num [validate_without_inference, demoLoader]

/-- First video of the demonstration: the fresh monitor records best 1 at
epoch 0 (which also writes the single checkpoint), then never sees an
improvement, so the counter climbs to the patience 10 and the loop stops
after 11 epochs. -/
theorem demo_video1_run :
    trainVideoLoop (EarlyStopping.init 10 (1/100)) demoLoader 0 [] 0 =
      ⟨⟨10, 1/100, 10, some 1, true⟩, 1, [0], 11⟩ := by
  rw [trainVideoLoop_eq]
  rw [demoLoader_accuracy]
  have hcall : (EarlyStopping.init 10 (1/100)).call 1 =
      ⟨10, 1/100, 0, some 1, false⟩ := by
    rw [EarlyStopping.init, EarlyStopping.call]
  rw [hcall]
  have hplateau := trainVideoLoop_plateau 10 ⟨10, 1/100, 0, some 1, false⟩ demoLoader 1 [0] 1 1 1
    demoLoader_accuracy rfl (by norm_num) rfl (by norm_num) (by norm_num) (by norm_num)
    (by norm_num)
  norm_num [hplateau]

/-- Second video of the demonstration: the monitor arrives with the stop flag
already set (and counter 10, best 1) from the first video, so the loop breaks
after a single epoch. -/
theorem demo_video2_run :
    trainVideoLoop ⟨10, 1/100, 10, some 1, true⟩ demoLoader 0 [] 0 =
      ⟨⟨10, 1/100, 11, some 1, true⟩, 1, [0], 1⟩ := by
  rw [trainVideoLoop_eq]
  rw [demoLoader_accuracy]
  have hcall : (⟨10, 1/100, 10, some 1, true⟩ : EarlyStopping).call 1 =
      ⟨10, 1/100, 11, some 1, true⟩ := by
    rw [EarlyStopping.call]
    dsimp only
    rw [if_neg (by norm_num : ¬ (1:ℚ) - 1 > 1/100)]
    norm_num
  rw [hcall]
  norm_num

/-! ## Claim C9 -/

/-- C9: for every monitor state, validation loader and starting checkpoint
bookkeeping, the epoch loop entered at epoch counter 0 (as the driver enters
it, line 188) terminates — `trainVideoLoop` is total — and executes at most
100 training epochs: each iteration that does not break on early stopping
advances the counter by one and the loop ends once the counter reaches 100
regardless of the stopping state. -/
theorem c9_epoch_loop_terminates_within_100 (es : EarlyStopping)
    (loader : List (List (Nat × Nat))) (best : ℚ) (saved : List Nat) :
    (trainVideoLoop es loader best saved 0).epochs_run ≤ 100 :=
  trainVideoLoop_epochs_le 100 es loader best saved 0 rfl (by norm_num)

/-! ## Claim C1 -/

/-- C1 (refuting the claim): the early-stopping monitor is NOT a fresh
instance at the start of each video — `train_until_threshold_met` constructs
it once, before the loop over videos (line 173), and threads it through.  On
two identical videos whose constant label-comparison accuracy is 1, the first
video runs 11 epochs and ends with the stop flag set; the monitor handed to
the second video is exactly that final state (stop flag set, counter 10,
recorded best 1), not a fresh instance, and the second video therefore breaks
after a single epoch, giving per-video epoch counts [11, 1] — whereas a fresh
monitor would give the second video 11 epochs as well. -/
theorem c1_early_stopping_state_carries_across_videos :
    (train_until_threshold_met [demoLoader, demoLoader]).2 = [11, 1] ∧
    (train_until_threshold_met [demoLoader, demoLoader]).1.counter = 11 ∧
    (trainVideoLoop (EarlyStopping.init 10 (1/100)) demoLoader 0 [] 0).early_stopping ≠
      EarlyStopping.init 10 (1/100) ∧
    (trainVideoLoop (EarlyStopping.init 10 (1/100)) demoLoader 0 [] 0).early_stopping.early_stop
      = true ∧
    (trainVideoLoop
      ((trainVideoLoop (EarlyStopping.init 10 (1/100)) demoLoader 0 [] 0).early_stopping)
      demoLoader 0 [] 0).epochs_run = 1 ∧
    (trainVideoLoop (EarlyStopping.init 10 (1/100)) demoLoader 0 [] 0).epochs_run = 11 := by
  refine ⟨?_, ?_, ?_, ?_, ?_, ?_⟩
  · rw [train_until_threshold_met]
    simp only [List.foldl, demo_video1_run]
    simp only [demo_video2_run]
    rfl
  · rw [train_until_threshold_met]
    simp only [List.foldl, demo_video1_run]
    simp only [demo_video2_run]
  · rw [demo_video1_run]
    intro h
    rw [EarlyStopping.init] at h
    simp only [EarlyStopping.mk.injEq] at h
    omega
  · rw [demo_video1_run]
  · rw [demo_video1_run]
    simp only [demo_video2_run]
  · rw [demo_video1_run]

/-! ## Checkpoint bookkeeping over an accuracy sequence (lines 187, 205-209)

Within one video run the loop holds `best_accuracy` (initialised to 0.0 at
line 187) and, when the accuracy of an epoch strictly exceeds it, updates
`best_accuracy` and writes `model_epoch_<epoch>.pth` (lines 205-209); nothing
in the program deletes a checkpoint file.  `checkpointsOfRun accs` is that
bookkeeping applied to the sequence `accs` of per-epoch validation
accuracies: it returns the epochs at which a checkpoint is written, in
order. -/

def checkpointStep (state : ℚ × List Nat) (p : Nat × ℚ) : ℚ × List Nat :=
  if p.2 > state.1 then (p.2, state.2 ++ [p.1]) else state

def checkpointsOfRun (accs : List ℚ) : List Nat :=
  (accs.enum.foldl checkpointStep (0, [])).2

theorem foldl_checkpointStep_mem (accs : List ℚ) : ∀ (n : Nat) (b : ℚ)
    (saved : List Nat) (i : Nat),
    (i ∈ (List.foldl checkpointStep (b, saved) (List.enumFrom n accs)).2 ↔
      i ∈ saved ∨ ∃ j, j < accs.length ∧ i = n + j ∧
        (accs.take j).foldl max b < accs.getD j 0) := by
  induction accs with
  | nil => intro n b saved i; simp
  | cons a as ih =>
    intro n b saved i
    rw [List.enumFrom_cons, List.foldl_cons]
    by_cases h : a > b
    · rw [show checkpointStep (b, saved) (n, a) = (a, saved ++ [n]) from by
        simp [checkpointStep, h]]
      rw [ih (n + 1) a (saved ++ [n]) i]
      constructor
      · rintro (hs | ⟨j, hj, hij, hlt⟩)
        · rcases List.mem_append.mp hs with hs | hs
          · exact Or.inl hs
          · refine Or.inr ⟨0, by simp, by simpa using hs, by simpa using h⟩
        · refine Or.inr ⟨j + 1, by simpa using hj, by omega, ?_⟩
          simp only [List.take_succ_cons, List.foldl_cons]
          rw [max_eq_right (le_of_lt h)]
          simpa using hlt
      · rintro (hs | ⟨j, hj, hij, hlt⟩)
        · exact Or.inl (List.mem_append.mpr (Or.inl hs))
        · cases j with
          | zero =>
            exact Or.inl (List.mem_append.mpr (Or.inr (by simpa using hij)))
          | succ j =>
            refine Or.inr ⟨j, by simpa using hj, by omega, ?_⟩
            rw [List.take_succ_cons, List.foldl_cons, max_eq_right (le_of_lt h)] at hlt
            simpa using hlt
    · rw [show checkpointStep (b, saved) (n, a) = (b, saved) from by
        simp [checkpointStep, h]]
      rw [ih (n + 1) b saved i]
      constructor
      · rintro (hs | ⟨j, hj, hij, hlt⟩)
        · exact Or.inl hs
        · refine Or.inr ⟨j + 1, by simpa using hj, by omega, ?_⟩
          simp only [List.take_succ_cons, List.foldl_cons]
          rw [max_eq_left (not_lt.mp h)]
          exact hlt
      · rintro (hs | ⟨j, hj, hij, hlt⟩)
        · exact Or.inl hs
        · cases j with
          | zero => exact absurd (by simpa using hlt) h
          | succ j =>
            refine Or.inr ⟨j, by simpa using hj, by omega, ?_⟩
            rw [List.take_succ_cons, List.foldl_cons, max_eq_left (not_lt.mp h)] at hlt
            exact hlt

theorem foldl_checkpointStep_prefix : ∀ (ps : List (Nat × ℚ)) (st : ℚ × List Nat),
    st.2 <+: (List.foldl checkpointStep st ps).2 := by
  intro ps
  induction ps with
  | nil => intro st; exact List.prefix_rfl
  | cons p ps ih =>
    intro st
    refine List.IsPrefix.trans ?_ (ih (checkpointStep st p))
    rw [checkpointStep]
    split
    · exact List.prefix_append _ _
    · exact List.prefix_rfl

theorem enumFrom_append_ckpt (l1 l2 : List ℚ) : ∀ n : Nat,
    List.enumFrom n (l1 ++ l2) =
      List.enumFrom n l1 ++ List.enumFrom (n + l1.length) l2 := by
  induction l1 with
  | nil => intro n; simp
  | cons a l ih =>
    intro n
    simp only [List.cons_append, List.enumFrom_cons, ih (n + 1), List.length_cons]
    rw [show n + 1 + l.length = n + (l.length + 1) by omega]

/-! ## Claim C4 -/

/-- C4: within one video run, a checkpoint is written after epoch `i` if and
only if that epoch's validation accuracy strictly exceeds the best accuracy
observed so far in the run (the maximum of the initial 0.0 of line 187 and
the earlier accuracies); for the accuracy sequence [0.5, 0.6, 0.55, 0.7]
exactly the three checkpoints of epochs 0, 1 and 3 are created; and
checkpoints accumulate — extending the run never removes an already-written
checkpoint (the earlier list stays a prefix). -/
theorem c4_checkpoint_iff_strict_improvement (accs more : List ℚ) (i : Nat)
    (h : i < accs.length) :
    (i ∈ checkpointsOfRun accs ↔ (accs.take i).foldl max 0 < accs.getD i 0) ∧
    checkpointsOfRun [1/2, 3/5, 11/20, 7/10] = [0, 1, 3] ∧
    checkpointsOfRun accs <+: checkpointsOfRun (accs ++ more) := by
  refine ⟨?_, ?_, ?_⟩
  · rw [checkpointsOfRun, List.enum_eq_enumFrom]
    rw [foldl_checkpointStep_mem accs 0 0 [] i]
    constructor
    · rintro (hs | ⟨j, hj, hij, hlt⟩)
      · exact absurd hs (List.not_mem_nil i)
      · have : j = i := by omega
        subst this
        exact hlt
    · intro hlt
      exact Or.inr ⟨i, h, by omega, hlt⟩
  · norm_num [checkpointsOfRun, checkpointStep, List.enum, List.enumFrom]
  · rw [checkpointsOfRun, checkpointsOfRun, List.enum_eq_enumFrom, List.enum_eq_enumFrom]
    rw [enumFrom_append_ckpt accs more 0, List.foldl_append]
    exact foldl_checkpointStep_prefix _ _

/-- Witness for C4 at concrete inputs. -/
theorem c4_checkpoint_iff_strict_improvement_witness :
    ((0 : Nat) ∈ checkpointsOfRun [1/2] ↔
      (([1/2] : List ℚ).take 0).foldl max 0 < ([1/2] : List ℚ).getD 0 0) ∧
    checkpointsOfRun [1/2, 3/5, 11/20, 7/10] = [0, 1, 3] ∧
    checkpointsOfRun [1/2] <+: checkpointsOfRun ([1/2] ++ []) :=
  c4_checkpoint_iff_strict_improvement [1/2] [] 0 (by simp)

/-! ## parse_annotations (lines 141-150) and the dataset label lookup (line 113)

The XML document is abstracted to the only structure `parse_annotations`
reads: the list of its `track` elements in document order, each carrying its
`label` attribute and the list of the `frame` attributes of its nested `box`
elements.  The Python dict is a function `Int → Option Nat`, starting empty;
`annotations[frame_id] = ...` is a pointwise update. -/

structure Track where
  label : String
  boxes : List Int
deriving DecidableEq

def parse_annotations (tracks : List Track) : Int → Option Nat :=
  tracks.foldl
    (fun ann track =>
      track.boxes.foldl
        (fun ann2 frame_id =>
          Function.update ann2 frame_id
            (some (lookupStrikeIdD track.label ((lookupStrikeId "No Strike").getD 0))))
        ann)
    (fun _ => none)

/-- Line 113 of `KeypointDataset.__getitem__`:
`label = self.annotations.get(frame_id, STRIKE_TYPE_TO_ID[No Strike])`. -/
def KeypointDataset.lookupLabel (ann : Int → Option Nat) (frame_id : Int) : Nat :=
  (ann frame_id).getD ((lookupStrikeId "No Strike").getD 0)

/-- One track's inner loop (lines 147-149): every frame in the track's boxes
is set to the track's label id, other frames are untouched. -/
theorem foldl_update_boxes (v : Option Nat) (boxes : List Int) :
    ∀ (ann : Int → Option Nat) (f : Int),
      (boxes.foldl (fun ann2 frame_id => Function.update ann2 frame_id v) ann) f =
        if f ∈ boxes then v else ann f := by
  induction boxes with
  | nil => intro ann f; simp
  | cons b bs ih =>
    intro ann f
    rw [List.foldl_cons, ih]
    by_cases hmem : f ∈ bs
    · rw [if_pos hmem, if_pos (List.mem_cons.mpr (Or.inr hmem))]
    · rw [if_neg hmem]
      by_cases hfb : f = b
      · subst hfb
        rw [Function.update_same, if_pos (List.mem_cons.mpr (Or.inl rfl))]
      · rw [Function.update_noteq hfb, if_neg (by simp [hfb, hmem])]

/-- Frames not referenced by any track of a suffix of the document are left
untouched by that suffix. -/
theorem parse_annotations_untouched (tracks : List Track) :
    ∀ (ann : Int → Option Nat) (f : Int), (∀ t ∈ tracks, f ∉ t.boxes) →
      (tracks.foldl
        (fun ann track =>
          track.boxes.foldl
            (fun ann2 frame_id =>
              Function.update ann2 frame_id
                (some (lookupStrikeIdD track.label ((lookupStrikeId "No Strike").getD 0))))
            ann)
        ann) f = ann f := by
  induction tracks with
  | nil => intro ann f _; rfl
  | cons t ts ih =>
    intro ann f hf
    rw [List.foldl_cons, ih _ f (fun u hu => hf u (List.mem_cons.mpr (Or.inr hu)))]
    rw [foldl_update_boxes]
    rw [if_neg (hf t (List.mem_cons.mpr (Or.inl rfl)))]

theorem mem_strikeTypeToId_fst {p : String × Nat} (hp : p ∈ STRIKE_TYPE_TO_ID) :
    p.1 ∈ STRIKE_TYPES := by
  rw [STRIKE_TYPE_TO_ID] at hp
  obtain ⟨a, ha, rfl⟩ := List.mem_map.mp hp
  exact List.getElem?_mem (List.mem_enum_iff_getElem?.mp ha)

theorem lookupStrikeId_eq_none {name : String} (h : name ∉ STRIKE_TYPES) :
    lookupStrikeId name = none := by
  rw [lookupStrikeId, List.lookup_eq_none_iff]
  intro p hp
  have hmem : p.1 ∈ STRIKE_TYPES := mem_strikeTypeToId_fst hp
  simp only [bne_iff_ne, ne_eq]
  intro e
  exact h (e ▸ hmem)

theorem lookupStrikeId_noStrike : lookupStrikeId "No Strike" = some 0 := by
  decide

/-! ## Claim C5 -/

/-- C5: `parse_annotations` iterates tracks in document order and assigns each
frame referenced in a track that track's label id, overwriting earlier
assignments — a frame contained in track `t` and in no later track ends
mapped to `t`'s label id; an unknown track label name does not raise and its
frames get the "No Strike" id 0; a frame referenced by no track is absent
from the mapping and `KeypointDataset` row access (line 113) then yields
label id 0 ("No Strike") for it. -/
theorem c5_parse_annotations_last_write_wins (tracks pre post : List Track)
    (t : Track) (f g : Int) (name : String) :
    (tracks = pre ++ t :: post → f ∈ t.boxes → (∀ u ∈ post, f ∉ u.boxes) →
      parse_annotations tracks f =
        some (lookupStrikeIdD t.label ((lookupStrikeId "No Strike").getD 0))) ∧
    (name ∉ STRIKE_TYPES →
      lookupStrikeIdD name ((lookupStrikeId "No Strike").getD 0) = 0) ∧
    ((∀ u ∈ tracks, g ∉ u.boxes) →
      parse_annotations tracks g = none ∧
      KeypointDataset.lookupLabel (parse_annotations tracks) g = 0) := by
  refine ⟨?_, ?_, ?_⟩
  · intro h1 h2 h3
    subst h1
    rw [parse_annotations, List.foldl_append, List.foldl_cons]
    rw [parse_annotations_untouched post _ f h3]
    rw [foldl_update_boxes, if_pos h2]
  · intro hname
    rw [lookupStrikeIdD, lookupStrikeId_eq_none hname, lookupStrikeId_noStrike]
    rfl
  · intro hg
    have habs : parse_annotations tracks g = none := by
      rw [parse_annotations, parse_annotations_untouched tracks _ g hg]
    refine ⟨habs, ?_⟩
    rw [KeypointDataset.lookupLabel, habs, lookupStrikeId_noStrike]
    rfl

/-- Witness for C5: document with a "Jab" track over frames 1 and 2 followed
by an unknown-label track over frames 2 and 3 — frame 2 ends at the unknown
track's fail-closed id 0, frame 1 keeps the Jab id, frame 7 is unmapped and
reads back as 0 through the dataset. -/
theorem c5_parse_annotations_last_write_wins_witness :
    parse_annotations [⟨"Jab", [1, 2]⟩, ⟨"Superman Punch", [2, 3]⟩] 2 =
      some (lookupStrikeIdD "Superman Punch" ((lookupStrikeId "No Strike").getD 0)) ∧
    lookupStrikeIdD "Superman Punch" ((lookupStrikeId "No Strike").getD 0) = 0 ∧
    (parse_annotations [⟨"Jab", [1, 2]⟩, ⟨"Superman Punch", [2, 3]⟩] 7 = none ∧
      KeypointDataset.lookupLabel
        (parse_annotations [⟨"Jab", [1, 2]⟩, ⟨"Superman Punch", [2, 3]⟩]) 7 = 0) :=
  ⟨(c5_parse_annotations_last_write_wins
      [⟨"Jab", [1, 2]⟩, ⟨"Superman Punch", [2, 3]⟩] [⟨"Jab", [1, 2]⟩] []
      ⟨"Superman Punch", [2, 3]⟩ 2 7 "Superman Punch").1 rfl (by decide) (by decide),
   (c5_parse_annotations_last_write_wins
      [⟨"Jab", [1, 2]⟩, ⟨"Superman Punch", [2, 3]⟩] [⟨"Jab", [1, 2]⟩] []
      ⟨"Superman Punch", [2, 3]⟩ 2 7 "Superman Punch").2.1 (by decide),
   (c5_parse_annotations_last_write_wins
      [⟨"Jab", [1, 2]⟩, ⟨"Superman Punch", [2, 3]⟩] [⟨"Jab", [1, 2]⟩] []
      ⟨"Superman Punch", [2, 3]⟩ 2 7 "Superman Punch").2.2 (by decide)⟩

/-! ## ValidationComparisonDataset (lines 64-80) and report-row writing
(lines 288-296)

A row of the comparison CSV carries a frame number and the predicted and
actual strike names.  `__getitem__` (lines 74-80) maps both names through
`STRIKE_TYPE_TO_ID[...]`, a raising lookup, modelled with `Option`.  The
report writers (`compare_predictions` line 295, `save_predictions_to_file`
line 284, `compare_with_validation_data` line 263) render a label id to its
name with `STRIKE_TYPES[pred]`. -/

structure ComparisonRow where
  frame_number : Int
  predicted_strike_name : String
  actual_strike_name : String
deriving DecidableEq

def ValidationComparisonDataset.getitem (row : ComparisonRow) : Option (Int × Nat × Nat) :=
  match lookupStrikeId row.predicted_strike_name, lookupStrikeId row.actual_strike_name with
  | some p, some a => some (row.frame_number, p, a)
  | _, _ => none

def writeReportRow (frame : Int) (pred actual : Nat) : ComparisonRow :=
  ⟨frame, strikeName pred, strikeName actual⟩

/-! ## Claim C6 -/

/-- C6: the strike-label table is a bijection between the 8 names and the ids
0..7 — converting an id to its name and back returns the id, and converting a
name in the enumeration to its id and back returns the name — and hence a
report row written from predicted/actual ids and read back through
`ValidationComparisonDataset.__getitem__` reproduces both ids (and the frame
number) exactly. -/
theorem c6_strike_table_bijection_roundtrip (i : Nat) (name : String)
    (frame : Int) (pred actual : Nat) :
    (i < NUM_CLASSES → lookupStrikeId (strikeName i) = some i) ∧
    (name ∈ STRIKE_TYPES →
      (lookupStrikeId name).isSome = true ∧
      strikeName ((lookupStrikeId name).getD 0) = name) ∧
    (pred < NUM_CLASSES → actual < NUM_CLASSES →
      ValidationComparisonDataset.getitem (writeReportRow frame pred actual) =
        some (frame, pred, actual)) := by
  have hid : ∀ j, j < 8 → lookupStrikeId (strikeName j) = some j := by decide
  refine ⟨fun hi => hid i hi, ?_, fun hp ha => ?_⟩
  · have hname : ∀ n ∈ STRIKE_TYPES,
        (lookupStrikeId n).isSome = true ∧
        strikeName ((lookupStrikeId n).getD 0) = n := by decide
    exact fun h => hname name h
  · simp [ValidationComparisonDataset.getitem, writeReportRow, hid pred hp, hid actual ha]

/-- Witness for C6 at id 3 ("Hook"), name "Hook" and a concrete report row. -/
theorem c6_strike_table_bijection_roundtrip_witness :
    lookupStrikeId (strikeName 3) = some 3 ∧
    ((lookupStrikeId "Hook").isSome = true ∧
      strikeName ((lookupStrikeId "Hook").getD 0) = "Hook") ∧
    ValidationComparisonDataset.getitem (writeReportRow 5 2 7) = some (5, 2, 7) :=
  ⟨(c6_strike_table_bijection_roundtrip 3 "Hook" 5 2 7).1 (by decide),
   (c6_strike_table_bijection_roundtrip 3 "Hook" 5 2 7).2.1 (by decide),
   (c6_strike_table_bijection_roundtrip 3 "Hook" 5 2 7).2.2 (by decide) (by decide)⟩

/-! ## DataFrames and the two keypoint dataset constructors (lines 42-50, 92-104)

`pd.read_csv` yields a dataframe, modelled by its column-name list and its
rows (one list of cell strings per row, `len(df)` = number of rows).  The
Python substring test `"keypoint" in col` is `containsSub`. -/

structure DataFrame where
  columns : List String
  rows : List (List String)
deriving DecidableEq

def strContainsAux (needle : List Char) : List Char → Bool
  | [] => needle.isEmpty
  | c :: cs => needle.isPrefixOf (c :: cs) || strContainsAux needle cs

def containsSub (needle hay : String) : Bool :=
  strContainsAux needle.data hay.data

/-- Rendering of `self.data_frame.columns` inside the f-string of line 101:
the column names, comma-separated. -/
def renderColumns : List String → String
  | [] => ""
  | [c] => c
  | c :: cs => c ++ ", " ++ renderColumns cs

/-- The `ValueError` message of line 101. -/
def frameIdMissingMsg (csv_file : String) (cols : List String) : String :=
  "The column \x27" ++ "frame_id" ++ "\x27 is missing from the CSV file: " ++
    csv_file ++ ". Columns found: " ++ renderColumns cols

structure KeypointDataset where
  data_frame : DataFrame
  annotations : Int → Option Nat
  keypoint_columns : List String

/-- `KeypointDataset.__init__` (lines 93-101): discover the keypoint columns
by substring match, then fail if `frame_id` is not among the columns. -/
def KeypointDataset.init (csv_file : String) (df : DataFrame)
    (ann : Int → Option Nat) : Except String KeypointDataset :=
  let keypoint_columns := df.columns.filter fun col =>
    containsSub "keypoint" col && (containsSub "_x" col || containsSub "_y" col)
  if "frame_id" ∈ df.columns then
    .ok ⟨df, ann, keypoint_columns⟩
  else
    .error (frameIdMissingMsg csv_file df.columns)

/-- `KeypointDataset.__len__` (lines 103-104). -/
def KeypointDataset.len (d : KeypointDataset) : Nat := d.data_frame.rows.length

structure ValidationKeypointDataset where
  data_frame : DataFrame
  annotations : Int → Option Nat
  keypoint_columns : List String

/-- `ValidationKeypointDataset.__init__` (lines 43-50): discover the keypoint
columns by substring match, then raise unless that very list is a subset of
the columns it was filtered from. -/
def ValidationKeypointDataset.init (df : DataFrame) (ann : Int → Option Nat) :
    Except String ValidationKeypointDataset :=
  let keypoint_columns := df.columns.filter fun col => containsSub "keypoint" col
  if keypoint_columns.all fun c => decide (c ∈ df.columns) then
    .ok ⟨df, ann, keypoint_columns⟩
  else
    .error "CSV file does not contain all required keypoint columns."

theorem mem_renderColumns_infix {c : String} {cols : List String} (h : c ∈ cols) :
    c.data <:+: (renderColumns cols).data := by
  induction cols with
  | nil => cases h
  | cons a cs ih =>
    cases cs with
    | nil =>
      rw [List.mem_singleton] at h
      subst h
      exact List.infix_rfl
    | cons b bs =>
      rw [show renderColumns (a :: b :: bs) = a ++ ", " ++ renderColumns (b :: bs) from rfl]
      rcases List.mem_cons.mp h with rfl | hmem
      · rw [String.data_append, String.data_append]
        exact (((List.prefix_append c.data (", ").data).trans
          (List.prefix_append _ _))).isInfix
      · exact (ih hmem).trans (List.suffix_append _ _).isInfix

/-! ## Claim C7 -/

/-- C7: constructing the training dataset from a CSV without a `frame_id`
column fails with the schema error message, which names the missing column
(`frame_id` occurs in it) and lists every column actually found (each column
name occurs in it); with `frame_id` present, construction succeeds and the
dataset's length equals the CSV's row count. -/
theorem c7_keypoint_dataset_schema_check (csv_file : String) (df : DataFrame)
    (ann : Int → Option Nat) :
    ("frame_id" ∉ df.columns →
      KeypointDataset.init csv_file df ann =
        .error (frameIdMissingMsg csv_file df.columns) ∧
      ("frame_id" : String).data <:+: (frameIdMissingMsg csv_file df.columns).data ∧
      ∀ c ∈ df.columns, c.data <:+: (frameIdMissingMsg csv_file df.columns).data) ∧
    ("frame_id" ∈ df.columns →
      ∃ d, KeypointDataset.init csv_file df ann = .ok d ∧
        d.len = df.rows.length) := by
  constructor
  · intro h
    refine ⟨?_, ?_, ?_⟩
    · rw [KeypointDataset.init, if_neg h]
    · rw [frameIdMissingMsg]
      refine ⟨("The column \x27" : String).data,
        ("\x27 is missing from the CSV file: " ++ csv_file ++ ". Columns found: " ++
          renderColumns df.columns).data, ?_⟩
      simp [List.append_assoc]
    · intro c hc
      rw [frameIdMissingMsg]
      have hr : c.data <:+: (renderColumns df.columns).data :=
        mem_renderColumns_infix hc
      refine hr.trans ?_
      rw [String.data_append]
      exact (List.suffix_append _ _).isInfix
  · intro h
    refine ⟨⟨df, ann, df.columns.filter fun col =>
      containsSub "keypoint" col && (containsSub "_x" col || containsSub "_y" col)⟩,
      ?_, rfl⟩
    rw [KeypointDataset.init, if_pos h]

/-- Witness for C7: a two-column CSV without `frame_id` fails with the message
naming `frame_id` and both columns; a CSV with `frame_id` and two rows
constructs a dataset of length 2. -/
theorem c7_keypoint_dataset_schema_check_witness :
    (KeypointDataset.init "f.csv" ⟨["a", "keypoint_1_x"], [["0", "1"]]⟩ (fun _ => none) =
      .error (frameIdMissingMsg "f.csv" ["a", "keypoint_1_x"]) ∧
      ("frame_id" : String).data <:+: (frameIdMissingMsg "f.csv" ["a", "keypoint_1_x"]).data ∧
      ∀ c ∈ (["a", "keypoint_1_x"] : List String),
        c.data <:+: (frameIdMissingMsg "f.csv" ["a", "keypoint_1_x"]).data) ∧
    ∃ d, KeypointDataset.init "g.csv" ⟨["frame_id"], [["3"], ["4"]]⟩ (fun _ => none) =
      .ok d ∧ d.len = 2 :=
  ⟨(c7_keypoint_dataset_schema_check "f.csv" ⟨["a", "keypoint_1_x"], [["0", "1"]]⟩
      (fun _ => none)).1 (by decide),
   (c7_keypoint_dataset_schema_check "g.csv" ⟨["frame_id"], [["3"], ["4"]]⟩
      (fun _ => none)).2 (by decide)⟩

/-! ## Claim C10 -/

/-- C10: the subset check of `ValidationKeypointDataset.__init__` compares the
discovered keypoint-column list — a filter of the dataframe's own columns —
against those same columns, so it always passes: for every input CSV the
constructor returns the dataset (the error branch is unreachable), including
a CSV with zero keypoint columns and one lacking the `Frame Number` and
`Actual Strike` columns that row access later needs. -/
theorem c10_validation_keypoint_check_vacuous :
    (∀ (df : DataFrame) (ann : Int → Option Nat),
      ValidationKeypointDataset.init df ann =
        .ok ⟨df, ann, df.columns.filter fun col => containsSub "keypoint" col⟩) ∧
    ValidationKeypointDataset.init ⟨["foo", "bar"], []⟩ (fun _ => none) =
      .ok ⟨⟨["foo", "bar"], []⟩, (fun _ => none), []⟩ ∧
    ValidationKeypointDataset.init ⟨["keypoint_1_x"], [["5"]]⟩ (fun _ => none) =
      .ok ⟨⟨["keypoint_1_x"], [["5"]]⟩, (fun _ => none), ["keypoint_1_x"]⟩ := by
  have hmain : ∀ (df : DataFrame) (ann : Int → Option Nat),
      ValidationKeypointDataset.init df ann =
        .ok ⟨df, ann, df.columns.filter fun col => containsSub "keypoint" col⟩ := by
    intro df ann
    rw [ValidationKeypointDataset.init, if_pos]
    rw [List.all_eq_true]
    intro c hc
    exact decide_eq_true (List.mem_of_mem_filter hc)
  refine ⟨hmain, ?_, ?_⟩
  · rw [hmain]
    rfl
  · rw [hmain]
    rfl

/-! ## validate_by_strike_type (lines 225-243)

The inference pass (lines 226-235) collects the predicted and true label ids
of every batch into `all_preds` and `all_labels`; being a floating-point
classifier run, it is taken as the two input lists here.  The report part
(lines 237-243) then computes, per strike type, the binary accuracy of the
indicator vectors `labels == idx` versus `preds == idx`, skipping types with
no true occurrence (`specific_labels.sum() > 0` is the count of `True`
entries). -/

def indicatorVec (idx : Nat) (l : List Nat) : List Bool :=
  l.map fun x => x == idx

/-- sklearn `accuracy_score` on two equal-length boolean vectors: the fraction
of positions where they agree. -/
def accuracy_score (y_true y_pred : List Bool) : ℚ :=
  (((y_true.zip y_pred).countP fun p => p.1 == p.2 : Nat) : ℚ) / (y_true.length : ℚ)

def validate_by_strike_type (all_preds all_labels : List Nat) : List (String × ℚ) :=
  STRIKE_TYPES.enum.filterMap fun p =>
    if 0 < (indicatorVec p.1 all_labels).count true then
      some (p.2, accuracy_score (indicatorVec p.1 all_labels) (indicatorVec p.1 all_preds))
    else none

theorem indicator_count (idx : Nat) (l : List Nat) :
    (indicatorVec idx l).count true = l.count idx := by
  simp [indicatorVec, List.count_eq_countP, List.countP_map, Function.comp]
  rfl

theorem accuracy_score_bounds (t p : List Bool) (h : 0 < t.length) :
    0 ≤ accuracy_score t p ∧ accuracy_score t p ≤ 1 := by
  have hlen : (0 : ℚ) < (t.length : ℚ) := by exact_mod_cast h
  rw [accuracy_score]
  constructor
  · apply div_nonneg
    · positivity
    · positivity
  · rw [div_le_one hlen]
    have hc : (t.zip p).countP (fun q => q.1 == q.2) ≤ t.length := by
      refine le_trans (List.countP_le_length _) ?_
      rw [List.length_zip]
      exact min_le_left _ _
    exact_mod_cast hc

/-! ## Claim C8 -/

/-- C8: the per-class accuracy report contains an entry for a class id exactly
when that class has at least one true occurrence among the collected labels —
present with value the binary accuracy of the two indicator vectors, a value
in [0, 1] — and contains no entry for a class with zero true occurrences. -/
theorem c8_per_class_accuracy_report (all_preds all_labels : List Nat) (i : Nat)
    (_hlen : all_preds.length = all_labels.length) (hi : i < NUM_CLASSES) :
    (0 < all_labels.count i →
      (strikeName i,
        accuracy_score (indicatorVec i all_labels) (indicatorVec i all_preds))
        ∈ validate_by_strike_type all_preds all_labels ∧
      0 ≤ accuracy_score (indicatorVec i all_labels) (indicatorVec i all_preds) ∧
      accuracy_score (indicatorVec i all_labels) (indicatorVec i all_preds) ≤ 1) ∧
    (all_labels.count i = 0 →
      ∀ q, (strikeName i, q) ∉ validate_by_strike_type all_preds all_labels) := by
  have hinj : ∀ a, a < 8 → ∀ b, b < 8 → strikeName a = strikeName b → a = b := by
    decide
  constructor
  · intro hcount
    have hmem_enum : (i, strikeName i) ∈ STRIKE_TYPES.enum := by
      have hall : ∀ j, j < 8 → (j, strikeName j) ∈ STRIKE_TYPES.enum := by decide
      exact hall i hi
    refine ⟨?_, ?_⟩
    · rw [validate_by_strike_type]
      refine List.mem_filterMap.mpr ⟨(i, strikeName i), hmem_enum, ?_⟩
      rw [if_pos (by rw [indicator_count]; exact hcount)]
    · refine accuracy_score_bounds _ _ ?_
      rw [indicatorVec, List.length_map]
      exact List.length_pos.mpr fun hnil => by simp [hnil] at hcount
  · intro hzero q hqmem
    rw [validate_by_strike_type] at hqmem
    obtain ⟨pj, hjs, hf⟩ := List.mem_filterMap.mp hqmem
    by_cases hcond : 0 < (indicatorVec pj.1 all_labels).count true
    · rw [if_pos hcond] at hf
      have hsome := Option.some.inj hf
      have hs : pj.2 = strikeName i := congrArg Prod.fst hsome
      have hget := List.mem_enum_iff_getElem?.mp hjs
      have hj8 : pj.1 < 8 := (List.getElem?_eq_some_iff.mp hget).1
      have hs2 : pj.2 = strikeName pj.1 := by
        rw [strikeName, List.getD_eq_getElem?_getD, hget]
        rfl
      have hij : pj.1 = i := hinj pj.1 hj8 i hi (by rw [← hs2, hs])
      rw [hij, indicator_count] at hcond
      omega
    · rw [if_neg hcond] at hf
      exact Option.noConfusion hf

/-- Witness for C8: labels [1, 0, 1], predictions [1, 1, 0] — class 1 has two
true occurrences and gets the indicator-vector accuracy, class 2 has none and
is absent. -/
theorem c8_per_class_accuracy_report_witness :
    ((strikeName 1,
        accuracy_score (indicatorVec 1 [1, 0, 1]) (indicatorVec 1 [1, 1, 0]))
        ∈ validate_by_strike_type [1, 1, 0] [1, 0, 1] ∧
      0 ≤ accuracy_score (indicatorVec 1 [1, 0, 1]) (indicatorVec 1 [1, 1, 0]) ∧
      accuracy_score (indicatorVec 1 [1, 0, 1]) (indicatorVec 1 [1, 1, 0]) ≤ 1) ∧
    ∀ q, (strikeName 2, q) ∉ validate_by_strike_type [1, 1, 0] [1, 0, 1] :=
  ⟨(c8_per_class_accuracy_report [1, 1, 0] [1, 0, 1] 1 rfl (by decide)).1 (by decide),
   (c8_per_class_accuracy_report [1, 1, 0] [1, 0, 1] 2 rfl (by decide)).2 (by decide)⟩
